import Mathlib

/-!
Verification of the CMAQ grid/projection adapter (`cmaqfile` in
`cartopy_cmaqfile.py`) against its natural-language specification.

Modelling conventions:
* Python floats are modelled as exact rationals (`ℚ`); the grid arithmetic,
  comparisons and nearest-neighbour search of the source are exact.
* A Python call that can either return a value, print an error message and
  return `None`, or raise an uncaught exception, is modelled by `PyResult`.
* The external coordinate-transform engine (cartopy `transform_points`) is an
  out-of-scope collaborator; it is modelled as an explicit function parameter
  `TransformEngine` taking the constructed projection object and a point and
  returning a transformed 3-component point (the third component is discarded,
  as in the source).
* `numpy.arange`, `numpy.meshgrid`, `numpy.argmin`, `ndarray.min`/`ndarray.max`
  are modelled on lists, with numpy's documented semantics: `arange` has
  `max 0 ⌈(stop-start)/step⌉` elements, `argmin` returns the first index of the
  minimum, reductions over an empty array raise.
-/

/-- Outcome of a Python-style operation of the module: a returned value,
a printed error message followed by `return` of `None` (`absent`), or an
uncaught exception propagating out of the call (`exn`). -/
inductive PyResult (α : Type) where
  | ok : α → PyResult α
  | absent : String → PyResult α
  | exn : String → PyResult α
  deriving DecidableEq

/-- Whether an operation soft-failed, i.e. printed a message and returned
`None` (as opposed to returning a value or raising an exception). -/
def PyResult.isAbsent {α : Type} : PyResult α → Bool
  | .absent _ => true
  | _ => false

/-- The read-only CMAQ metadata record wrapped by the adapter
(the fields of `self.ds` read by the source). -/
structure GridMetadata where
  GDTYP : ℤ
  XORIG : ℚ
  YORIG : ℚ
  XCELL : ℚ
  YCELL : ℚ
  NCOLS : ℕ
  NROWS : ℕ
  XCENT : ℚ
  YCENT : ℚ
  P_ALP : ℚ
  P_BET : ℚ
  deriving DecidableEq

/-- The adapter object: `cmaqfile.__init__` stores the dataset as `self.ds`. -/
structure cmaqfile where
  ds : GridMetadata
  deriving DecidableEq

/-- A spherical globe as built by the source: `ccrs.Globe(ellipse=None,
semimajor_axis=radius, semiminor_axis=radius)`. -/
structure Globe where
  semimajor_axis : ℚ
  semiminor_axis : ℚ
  deriving DecidableEq

/-- The projection object returned by `getCMAQproj`: either
`ccrs.LambertConformal(...)` or `ccrs.NorthPolarStereo(...)` with the
parameters the source passes. -/
inductive CMAQproj where
  | lambertConformal (central_longitude central_latitude : ℚ)
      (standard_parallels : ℚ × ℚ) (globe : Globe)
  | northPolarStereo (central_longitude true_scale_latitude : ℚ) (globe : Globe)
  deriving DecidableEq

/-- The external transform engine: given the constructed projection object and
one input point, produce the transformed point (x, y, z); cartopy
`transform_points` returns triples and the source discards the third slot. -/
def TransformEngine : Type := CMAQproj → ℚ → ℚ → ℚ × ℚ × ℚ

/-- `numpy.arange start stop step` on exact numbers: the arithmetic sequence
`start, start+step, ...` with `max 0 ⌈(stop-start)/step⌉` elements. -/
def arange (start stop step : ℚ) : List ℚ :=
  (List.range (⌈(stop - start) / step⌉).toNat).map (fun (k : ℕ) => start + (k : ℚ) * step)

/-- `numpy.meshgrid X Y`: the pair `(XX, YY)` of 2-D arrays of shape
`(len Y, len X)` with `XX[r][c] = X[c]` and `YY[r][c] = Y[r]`. -/
def meshgrid (X Y : List ℚ) : List (List ℚ) × List (List ℚ) :=
  (Y.map (fun _ => X), Y.map (fun y => X.map (fun _ => y)))

/-- `numpy.argmin` on a list: index of the first occurrence of the minimum
value (0 on the empty list, on which numpy instead raises; callers guard). -/
def argmin (l : List ℚ) : ℕ :=
  match l.min? with
  | none => 0
  | some m => l.findIdx (fun a => decide (a = m))

/-- Default earth radius of `getCMAQproj` (6370000 m). -/
def defaultRadius : ℚ := 6370000

/-- `cmaqfile.getXYcenters`: grid cell centers from the metadata. -/
def cmaqfile.getXYcenters (self : cmaqfile) : PyResult (List ℚ × List ℚ) :=
  if self.ds.GDTYP = 1 then
    .absent "ERROR: Cannot use getXYcenters with lat-lon projection."
  else
    let xcell := self.ds.XCELL
    let xstart := self.ds.XORIG
    let xend := xstart + xcell * (self.ds.NCOLS : ℚ)
    let ycell := self.ds.YCELL
    let ystart := self.ds.YORIG
    let yend := ystart + ycell * (self.ds.NROWS : ℚ)
    .ok (arange (xstart + xcell / 2) xend xcell,
         arange (ystart + ycell / 2) yend ycell)

/-- `cmaqfile.getXYcorners`: grid cell corner mesh from the metadata. -/
def cmaqfile.getXYcorners (self : cmaqfile) : PyResult (List (List ℚ) × List (List ℚ)) :=
  if self.ds.GDTYP = 1 then
    .absent "ERROR: Cannot use getXYcorners with lat-lon projection."
  else
    let xcell := self.ds.XCELL
    let xstart := self.ds.XORIG
    let xend := xstart + xcell * (self.ds.NCOLS : ℚ)
    let ycell := self.ds.YCELL
    let ystart := self.ds.YORIG
    let yend := ystart + ycell * (self.ds.NROWS : ℚ)
    .ok (meshgrid (arange xstart (xend + xcell) xcell)
                  (arange ystart (yend + ycell) ycell))

/-- The message printed by `getCMAQproj` for an unsupported projection code;
it identifies the offending `GDTYP` value. -/
def unsupportedMsg (g : ℤ) : String :=
  "Projection GDTYP " ++ toString g ++
    " not supported. Only Lambert Conformal Conic (GDTYP=2) and North Polar Stereogrpahic (GDTYP=6) projections have been implemented."

/-- `cmaqfile.getCMAQproj`: cartopy projection from the metadata.  In the
source `radius` has default value 6370000 (see `defaultRadius`). -/
def cmaqfile.getCMAQproj (self : cmaqfile) (radius : ℚ) : PyResult CMAQproj :=
  if self.ds.GDTYP = 2 then
    .ok (.lambertConformal self.ds.XCENT self.ds.YCENT
          (self.ds.P_ALP, self.ds.P_BET) ⟨radius, radius⟩)
  else if self.ds.GDTYP = 6 then
    .ok (.northPolarStereo self.ds.XCENT self.ds.P_BET ⟨radius, radius⟩)
  else
    .absent (unsupportedMsg self.ds.GDTYP)

/-- `cmaqfile.ll2xy`: forward transform of (lon, lat) points into the grid
projection plane.  When `getCMAQproj` soft-fails (GDTYP not in {1,2,6}), the
source calls `.transform_points` on `None`, which raises. -/
def cmaqfile.ll2xy (engine : TransformEngine) (self : cmaqfile) (lons lats : List ℚ) :
    PyResult (List ℚ × List ℚ) :=
  if self.ds.GDTYP = 1 then
    .absent "ERROR: GDTYPE=1. Cannot use ll2xy with lat-lon projection."
  else if lons.length ≠ lats.length then
    .absent "ERROR: Number of longitude and latitude points must be equal."
  else
    match self.getCMAQproj defaultRadius with
    | .ok cmaqproj =>
        let pts := (lons.zip lats).map (fun q => engine cmaqproj q.1 q.2)
        .ok (pts.map (fun t => t.1), pts.map (fun t => t.2.1))
    | .absent _ => .exn "AttributeError: NoneType object has no attribute transform_points"
    | .exn m => .exn m

/-- `cmaqfile.xy2ll`: inverse transform of planar (X, Y) points back to
(lon, lat).  When `getCMAQproj` soft-fails, the source passes `None` as the
source CRS of `transform_points`, which raises inside the engine. -/
def cmaqfile.xy2ll (engine : TransformEngine) (self : cmaqfile) (X Y : List ℚ) :
    PyResult (List ℚ × List ℚ) :=
  if self.ds.GDTYP = 1 then
    .absent "ERROR: Cannot use ll2xy with lat-lon projection."
  else if X.length ≠ Y.length then
    .absent "ERROR: Number of X and Y points must be equal."
  else
    match self.getCMAQproj defaultRadius with
    | .ok cmaqproj =>
        let pts := (X.zip Y).map (fun q => engine cmaqproj q.1 q.2)
        .ok (pts.map (fun t => t.1), pts.map (fun t => t.2.1))
    | .absent _ => .exn "uncaught exception: transform_points called with NoneType source projection"
    | .exn m => .exn m

/-- Prepend one point result to the accumulated `ll2ij` index lists,
propagating a raised exception from the rest of the loop. -/
def consIJ (a b : Option ℕ) :
    PyResult (List (Option ℕ) × List (Option ℕ)) →
    PyResult (List (Option ℕ) × List (Option ℕ))
  | .ok (i, j) => .ok (a :: i, b :: j)
  | .absent m => .absent m
  | .exn m => .exn m

/-- The per-point loop of `cmaqfile.ll2ij`: for each transformed point,
test membership in the corner bounding box and append either `NaN`
(modelled `none`) or the nearest-center indices.  numpy reductions
(`min`/`max`/`argmin`) over empty arrays raise `ValueError`. -/
def ll2ijLoop (Xcenters Ycenters : List ℚ) (Xcorners Ycorners : List (List ℚ)) :
    List (ℚ × ℚ) → PyResult (List (Option ℕ) × List (Option ℕ))
  | [] => .ok ([], [])
  | (x, y) :: rest =>
    match Xcorners.flatten.min?, Xcorners.flatten.max?,
          Ycorners.flatten.min?, Ycorners.flatten.max? with
    | some xmn, some xmx, some ymn, some ymx =>
      if x < xmn ∨ x > xmx then
        consIJ none none (ll2ijLoop Xcenters Ycenters Xcorners Ycorners rest)
      else if y < ymn ∨ y > ymx then
        consIJ none none (ll2ijLoop Xcenters Ycenters Xcorners Ycorners rest)
      else if Xcenters.isEmpty ∨ Ycenters.isEmpty then
        .exn "ValueError: attempt to get argmin of an empty sequence"
      else
        consIJ (some (argmin (Xcenters.map (fun c => |c - x|))))
               (some (argmin (Ycenters.map (fun c => |c - y|))))
               (ll2ijLoop Xcenters Ycenters Xcorners Ycorners rest)
    | _, _, _, _ => .exn "ValueError: zero-size array to reduction operation minimum which has no identity"

/-- `cmaqfile.ll2ij`: nearest-cell indices of (lon, lat) points, `NaN`
(modelled `none`) for points outside the corner bounding box.  Unpacking a
`None` returned by a helper would raise in Python, modelled by `exn`. -/
def cmaqfile.ll2ij (engine : TransformEngine) (self : cmaqfile) (lons lats : List ℚ) :
    PyResult (List (Option ℕ) × List (Option ℕ)) :=
  if self.ds.GDTYP = 1 then
    .absent "ERROR: Cannot use ll2ij with lat-lon projection."
  else if lons.length ≠ lats.length then
    .absent "ERROR: Number of longitude and latitude points must be equal."
  else
    match self.getXYcenters with
    | .absent _ => .exn "TypeError: cannot unpack non-iterable NoneType object"
    | .exn m => .exn m
    | .ok (Xcenters, Ycenters) =>
      match self.getXYcorners with
      | .absent _ => .exn "TypeError: cannot unpack non-iterable NoneType object"
      | .exn m => .exn m
      | .ok (Xcorners, Ycorners) =>
        match cmaqfile.ll2xy engine self lons lats with
        | .absent _ => .exn "TypeError: cannot unpack non-iterable NoneType object"
        | .exn m => .exn m
        | .ok (xpts, ypts) =>
          ll2ijLoop Xcenters Ycenters Xcorners Ycorners (xpts.zip ypts)

/-! ### Concrete fixtures used by the witnesses -/

/-- A Lambert Conformal Conic test file: the 3x2 grid of spec §8
(`NCOLS=3, NROWS=2, XORIG=0, YORIG=0, XCELL=10, YCELL=10`), GDTYP = 2. -/
def wgrid : cmaqfile := ⟨⟨2, 0, 0, 10, 10, 3, 2, -97, 40, 33, 45⟩⟩

/-- The same grid with the unsupported projection code GDTYP = 7. -/
def wgrid7 : cmaqfile := ⟨⟨7, 0, 0, 10, 10, 3, 2, -97, 40, 33, 45⟩⟩

/-- The same grid with the north polar stereographic code GDTYP = 6. -/
def wgrid6 : cmaqfile := ⟨⟨6, 0, 0, 10, 10, 3, 2, -97, 40, 33, 45⟩⟩

/-- The same grid with the geographic (lat-lon) code GDTYP = 1. -/
def wgrid1 : cmaqfile := ⟨⟨1, 0, 0, 10, 10, 3, 2, -97, 40, 33, 45⟩⟩

/-- A concrete stand-in for the external transform engine: the identity on
(lon, lat) with zero third component.  Only used to instantiate witnesses. -/
def idEngine : TransformEngine := fun _ lon lat => (lon, lat, 0)

/-! ### Arithmetic facts about `arange` -/

theorem arange_length (start stop step : ℚ) :
    (arange start stop step).length = (⌈(stop - start) / step⌉).toNat := by
  rw [arange, List.length_map, List.length_range]

theorem arange_get (start stop step : ℚ) (k : ℕ) (hk : k < (arange start stop step).length) :
    (arange start stop step).get ⟨k, hk⟩ = start + (k : ℚ) * step := by
  simp only [arange, List.get_eq_getElem, List.getElem_map, List.getElem_range]

theorem ceil_natCast_sub_half (n : ℕ) : ⌈(n : ℚ) - 1 / 2⌉ = (n : ℤ) := by
  rw [Int.ceil_eq_iff]
  constructor
  · push_cast
    linarith
  · push_cast
    linarith

theorem centers_length (s c : ℚ) (hc : 0 < c) (n : ℕ) :
    (arange (s + c / 2) (s + c * n) c).length = n := by
  have hcne : c ≠ 0 := ne_of_gt hc
  have h1 : s + c * (n : ℚ) - (s + c / 2) = c * ((n : ℚ) - 1 / 2) := by ring
  rw [arange_length, h1, mul_div_cancel_left₀ _ hcne, ceil_natCast_sub_half,
    Int.toNat_ofNat]

theorem corners_length (s c : ℚ) (hc : 0 < c) (n : ℕ) :
    (arange s (s + c * n + c) c).length = n + 1 := by
  have hcne : c ≠ 0 := ne_of_gt hc
  have h1 : s + c * (n : ℚ) + c - s = c * (((n + 1 : ℕ) : ℚ)) := by push_cast; ring
  rw [arange_length, h1, mul_div_cancel_left₀ _ hcne, Int.ceil_natCast,
    Int.toNat_ofNat]

theorem arange_mem_lt (s c : ℚ) (hc : 0 < c) (n : ℕ) :
    ∀ x ∈ arange (s + c / 2) (s + c * n) c, x < s + c * n := by
  intro x hx
  obtain ⟨⟨k, hk⟩, rfl⟩ := List.mem_iff_get.mp hx
  rw [arange_get]
  have hkn : k < n := by rwa [centers_length s c hc n] at hk
  have hk1 : (k : ℚ) + 1 ≤ (n : ℚ) := by exact_mod_cast hkn
  nlinarith [mul_le_mul_of_nonneg_left hk1 (le_of_lt hc)]

/-! ### Unfolding the grid-coordinate generators on valid metadata -/

theorem getXYcenters_eq (f : cmaqfile) (h : f.ds.GDTYP ≠ 1) :
    f.getXYcenters = .ok
      (arange (f.ds.XORIG + f.ds.XCELL / 2)
        (f.ds.XORIG + f.ds.XCELL * (f.ds.NCOLS : ℚ)) f.ds.XCELL,
       arange (f.ds.YORIG + f.ds.YCELL / 2)
        (f.ds.YORIG + f.ds.YCELL * (f.ds.NROWS : ℚ)) f.ds.YCELL) := by
  simp [cmaqfile.getXYcenters, h]

theorem getXYcorners_eq (f : cmaqfile) (h : f.ds.GDTYP ≠ 1) :
    f.getXYcorners = .ok
      (meshgrid
        (arange f.ds.XORIG (f.ds.XORIG + f.ds.XCELL * (f.ds.NCOLS : ℚ) + f.ds.XCELL) f.ds.XCELL)
        (arange f.ds.YORIG (f.ds.YORIG + f.ds.YCELL * (f.ds.NROWS : ℚ) + f.ds.YCELL) f.ds.YCELL)) := by
  simp [cmaqfile.getXYcorners, h]

/-- C3: for GDTYP ≠ 1 (and positive cell sizes, as for any CMAQ grid),
`getXYcenters` returns the arithmetic sequence starting at `XORIG + XCELL/2`
with step `XCELL` and length exactly `NCOLS`, every element strictly below
`XORIG + XCELL*NCOLS`, and the analogous Y sequence of length `NROWS`. -/
theorem C3_getXYcenters_arithmetic (f : cmaqfile)
    (hG : f.ds.GDTYP ≠ 1) (hxc : 0 < f.ds.XCELL) (hyc : 0 < f.ds.YCELL) :
    ∃ X Y : List ℚ, f.getXYcenters = .ok (X, Y) ∧
      X.length = f.ds.NCOLS ∧ Y.length = f.ds.NROWS ∧
      (∀ k (hk : k < X.length),
        X.get ⟨k, hk⟩ = f.ds.XORIG + f.ds.XCELL / 2 + (k : ℚ) * f.ds.XCELL) ∧
      (∀ k (hk : k < Y.length),
        Y.get ⟨k, hk⟩ = f.ds.YORIG + f.ds.YCELL / 2 + (k : ℚ) * f.ds.YCELL) ∧
      (∀ x ∈ X, x < f.ds.XORIG + f.ds.XCELL * (f.ds.NCOLS : ℚ)) ∧
      (∀ y ∈ Y, y < f.ds.YORIG + f.ds.YCELL * (f.ds.NROWS : ℚ)) := by
  refine ⟨_, _, getXYcenters_eq f hG,
    centers_length _ _ hxc _, centers_length _ _ hyc _, ?_, ?_, ?_, ?_⟩
  · intro k hk
    rw [arange_get]
  · intro k hk
    rw [arange_get]
  · exact arange_mem_lt _ _ hxc _
  · exact arange_mem_lt _ _ hyc _

/-- C4: for GDTYP ≠ 1 (and positive cell sizes), `getXYcorners` returns two
2-D arrays of shape `(NROWS+1, NCOLS+1)` meshing the inclusive X-edge and
Y-edge arithmetic sequences: `Xcorners[row][col] = XORIG + col*XCELL` and
`Ycorners[row][col] = YORIG + row*YCELL`. -/
theorem C4_getXYcorners_mesh (f : cmaqfile)
    (hG : f.ds.GDTYP ≠ 1) (hxc : 0 < f.ds.XCELL) (hyc : 0 < f.ds.YCELL) :
    ∃ Xcorn Ycorn : List (List ℚ), f.getXYcorners = .ok (Xcorn, Ycorn) ∧
      Xcorn.length = f.ds.NROWS + 1 ∧ Ycorn.length = f.ds.NROWS + 1 ∧
      (∀ row ∈ Xcorn, row.length = f.ds.NCOLS + 1) ∧
      (∀ row ∈ Ycorn, row.length = f.ds.NCOLS + 1) ∧
      (∀ (r : ℕ) (row : List ℚ), Xcorn[r]? = some row → ∀ k (hk : k < row.length),
        row.get ⟨k, hk⟩ = f.ds.XORIG + (k : ℚ) * f.ds.XCELL) ∧
      (∀ (r : ℕ) (row : List ℚ), Ycorn[r]? = some row → ∀ k (hk : k < row.length),
        row.get ⟨k, hk⟩ = f.ds.YORIG + (r : ℚ) * f.ds.YCELL) := by
  refine ⟨_, _, getXYcorners_eq f hG, ?_, ?_, ?_, ?_, ?_, ?_⟩
  · simp [meshgrid, corners_length _ _ hyc]
  · simp [meshgrid, corners_length _ _ hyc]
  · intro row hrow
    simp only [meshgrid, List.mem_map] at hrow
    obtain ⟨y, -, rfl⟩ := hrow
    exact corners_length _ _ hxc _
  · intro row hrow
    simp only [meshgrid, List.mem_map] at hrow
    obtain ⟨y, -, rfl⟩ := hrow
    simp [corners_length _ _ hxc]
  · intro r row hrow k hk
    simp only [meshgrid, List.getElem?_map] at hrow
    obtain ⟨y, -, rfl⟩ := Option.map_eq_some.mp hrow
    rw [arange_get]
  · intro r row hrow k hk
    simp only [meshgrid, List.getElem?_map] at hrow
    obtain ⟨y, hy, rfl⟩ := Option.map_eq_some.mp hrow
    simp only [List.getElem?_eq_some] at hy
    obtain ⟨hr, hy⟩ := hy
    simp only [List.get_eq_getElem, List.getElem_map]
    rw [← hy]
    have h2 := arange_get f.ds.YORIG
      (f.ds.YORIG + f.ds.YCELL * (f.ds.NROWS : ℚ) + f.ds.YCELL) f.ds.YCELL r hr
    simpa using h2

/-! ### Evaluating the spec §8 example grid -/

theorem arange_eval_X : arange ((0:ℚ) + 10 / 2) (0 + 10 * ((3:ℕ):ℚ)) 10 = [5, 15, 25] := by
  have hcount : (⌈(((0:ℚ) + 10 * ((3:ℕ):ℚ)) - ((0:ℚ) + 10 / 2)) / 10⌉).toNat = 3 := by
    have h := centers_length (0:ℚ) 10 (by norm_num) 3
    rwa [arange_length] at h
  rw [arange, hcount, show List.range 3 = [0, 1, 2] from rfl]
  norm_num

theorem arange_eval_Y : arange ((0:ℚ) + 10 / 2) (0 + 10 * ((2:ℕ):ℚ)) 10 = [5, 15] := by
  have hcount : (⌈(((0:ℚ) + 10 * ((2:ℕ):ℚ)) - ((0:ℚ) + 10 / 2)) / 10⌉).toNat = 2 := by
    have h := centers_length (0:ℚ) 10 (by norm_num) 2
    rwa [arange_length] at h
  rw [arange, hcount, show List.range 2 = [0, 1] from rfl]
  norm_num

theorem wgrid_centers_eval : wgrid.getXYcenters = .ok ([5, 15, 25], [5, 15]) := by
  rw [getXYcenters_eq wgrid (by decide)]
  show PyResult.ok (arange ((0:ℚ) + 10 / 2) (0 + 10 * ((3:ℕ):ℚ)) 10,
    arange ((0:ℚ) + 10 / 2) (0 + 10 * ((2:ℕ):ℚ)) 10) = _
  rw [arange_eval_X, arange_eval_Y]

/-- Witness for C3 at the spec §8 example grid, including the example output
`X = [5, 15, 25]`, `Y = [5, 15]`. -/
theorem C3_witness :
    (wgrid.ds.GDTYP ≠ 1 ∧ 0 < wgrid.ds.XCELL ∧ 0 < wgrid.ds.YCELL) ∧
    (∃ X Y : List ℚ, wgrid.getXYcenters = .ok (X, Y) ∧
      X.length = wgrid.ds.NCOLS ∧ Y.length = wgrid.ds.NROWS ∧
      (∀ k (hk : k < X.length),
        X.get ⟨k, hk⟩ = wgrid.ds.XORIG + wgrid.ds.XCELL / 2 + (k : ℚ) * wgrid.ds.XCELL) ∧
      (∀ k (hk : k < Y.length),
        Y.get ⟨k, hk⟩ = wgrid.ds.YORIG + wgrid.ds.YCELL / 2 + (k : ℚ) * wgrid.ds.YCELL) ∧
      (∀ x ∈ X, x < wgrid.ds.XORIG + wgrid.ds.XCELL * (wgrid.ds.NCOLS : ℚ)) ∧
      (∀ y ∈ Y, y < wgrid.ds.YORIG + wgrid.ds.YCELL * (wgrid.ds.NROWS : ℚ))) ∧
    wgrid.getXYcenters = .ok ([5, 15, 25], [5, 15]) :=
  ⟨⟨by decide, by decide, by decide⟩,
   C3_getXYcenters_arithmetic wgrid (by decide) (by decide) (by decide),
   wgrid_centers_eval⟩

/-- Witness for C4 at the spec §8 example grid. -/
theorem C4_witness :
    (wgrid.ds.GDTYP ≠ 1 ∧ 0 < wgrid.ds.XCELL ∧ 0 < wgrid.ds.YCELL) ∧
    (∃ Xcorn Ycorn : List (List ℚ), wgrid.getXYcorners = .ok (Xcorn, Ycorn) ∧
      Xcorn.length = wgrid.ds.NROWS + 1 ∧ Ycorn.length = wgrid.ds.NROWS + 1 ∧
      (∀ row ∈ Xcorn, row.length = wgrid.ds.NCOLS + 1) ∧
      (∀ row ∈ Ycorn, row.length = wgrid.ds.NCOLS + 1) ∧
      (∀ (r : ℕ) (row : List ℚ), Xcorn[r]? = some row → ∀ k (hk : k < row.length),
        row.get ⟨k, hk⟩ = wgrid.ds.XORIG + (k : ℚ) * wgrid.ds.XCELL) ∧
      (∀ (r : ℕ) (row : List ℚ), Ycorn[r]? = some row → ∀ k (hk : k < row.length),
        row.get ⟨k, hk⟩ = wgrid.ds.YORIG + (r : ℚ) * wgrid.ds.YCELL)) :=
  ⟨⟨by decide, by decide, by decide⟩,
   C4_getXYcorners_mesh wgrid (by decide) (by decide) (by decide)⟩

/-- C5: `getCMAQproj` builds a Lambert Conformal Conic projection for
GDTYP = 2 and a North Polar Stereographic projection for GDTYP = 6, both on a
spherical globe of the given radius; any other code (including 1 and 7) is
reported as unsupported (message identifying the code) with no projection
object returned. -/
theorem C5_getCMAQproj_branches (f : cmaqfile) (radius : ℚ) :
    (f.ds.GDTYP ≠ 2 → f.ds.GDTYP ≠ 6 →
      f.getCMAQproj radius = .absent (unsupportedMsg f.ds.GDTYP)) ∧
    (f.ds.GDTYP = 2 →
      f.getCMAQproj radius = .ok (.lambertConformal f.ds.XCENT f.ds.YCENT
        (f.ds.P_ALP, f.ds.P_BET) ⟨radius, radius⟩)) ∧
    (f.ds.GDTYP = 6 →
      f.getCMAQproj radius = .ok (.northPolarStereo f.ds.XCENT f.ds.P_BET
        ⟨radius, radius⟩)) := by
  refine ⟨fun h2 h6 => ?_, fun h2 => ?_, fun h6 => ?_⟩
  · simp [cmaqfile.getCMAQproj, h2, h6]
  · simp [cmaqfile.getCMAQproj, h2]
  · simp [cmaqfile.getCMAQproj, h6]

/-- Witness for C5 at GDTYP = 7, 1, 2 and 6. -/
theorem C5_witness :
    (wgrid7.ds.GDTYP ≠ 2 ∧ wgrid7.ds.GDTYP ≠ 6 ∧
      wgrid7.getCMAQproj 6370000 = .absent (unsupportedMsg wgrid7.ds.GDTYP)) ∧
    (wgrid1.ds.GDTYP ≠ 2 ∧ wgrid1.ds.GDTYP ≠ 6 ∧
      wgrid1.getCMAQproj 6370000 = .absent (unsupportedMsg wgrid1.ds.GDTYP)) ∧
    (wgrid.ds.GDTYP = 2 ∧
      wgrid.getCMAQproj 6370000 = .ok (.lambertConformal wgrid.ds.XCENT wgrid.ds.YCENT
        (wgrid.ds.P_ALP, wgrid.ds.P_BET) ⟨6370000, 6370000⟩)) ∧
    (wgrid6.ds.GDTYP = 6 ∧
      wgrid6.getCMAQproj 6370000 = .ok (.northPolarStereo wgrid6.ds.XCENT wgrid6.ds.P_BET
        ⟨6370000, 6370000⟩)) :=
  ⟨⟨by decide, by decide,
      (C5_getCMAQproj_branches wgrid7 6370000).1 (by decide) (by decide)⟩,
   ⟨by decide, by decide,
      (C5_getCMAQproj_branches wgrid1 6370000).1 (by decide) (by decide)⟩,
   ⟨by decide, (C5_getCMAQproj_branches wgrid 6370000).2.1 (by decide)⟩,
   ⟨by decide, (C5_getCMAQproj_branches wgrid6 6370000).2.2 (by decide)⟩⟩

/-- C7: for GDTYP ≠ 1, `ll2xy` and `ll2ij` with non-empty unequal-length
longitude/latitude inputs (and `xy2ll` with unequal-length X/Y inputs) report
the length-mismatch error and return no result. -/
theorem C7_length_mismatch (eng : TransformEngine) (f : cmaqfile)
    (hG : f.ds.GDTYP ≠ 1) (lons lats : List ℚ)
    (hne1 : lons ≠ []) (hne2 : lats ≠ []) (hlen : lons.length ≠ lats.length) :
    cmaqfile.ll2xy eng f lons lats =
      .absent "ERROR: Number of longitude and latitude points must be equal." ∧
    cmaqfile.ll2ij eng f lons lats =
      .absent "ERROR: Number of longitude and latitude points must be equal." ∧
    cmaqfile.xy2ll eng f lons lats =
      .absent "ERROR: Number of X and Y points must be equal." := by
  refine ⟨?_, ?_, ?_⟩ <;>
    simp [cmaqfile.ll2xy, cmaqfile.ll2ij, cmaqfile.xy2ll, hG, hlen]

/-- Witness for C7: one point against two points. -/
theorem C7_witness :
    (wgrid.ds.GDTYP ≠ 1 ∧ ([0] : List ℚ) ≠ [] ∧ ([0, 0] : List ℚ) ≠ [] ∧
      ([0] : List ℚ).length ≠ ([0, 0] : List ℚ).length) ∧
    (cmaqfile.ll2xy idEngine wgrid [0] [0, 0] =
      .absent "ERROR: Number of longitude and latitude points must be equal." ∧
    cmaqfile.ll2ij idEngine wgrid [0] [0, 0] =
      .absent "ERROR: Number of longitude and latitude points must be equal." ∧
    cmaqfile.xy2ll idEngine wgrid [0] [0, 0] =
      .absent "ERROR: Number of X and Y points must be equal.") :=
  ⟨⟨by decide, by decide, by decide, by decide⟩,
   C7_length_mismatch idEngine wgrid (by decide) [0] [0, 0]
     (by decide) (by decide) (by decide)⟩

/-- C8: for GDTYP = 1, each of the five planar-grid operations reports an
error and produces no result (an absent value). -/
theorem C8_gdtyp1_all_absent (eng : TransformEngine) (f : cmaqfile)
    (h : f.ds.GDTYP = 1) (lons lats X Y : List ℚ) :
    f.getXYcenters = .absent "ERROR: Cannot use getXYcenters with lat-lon projection." ∧
    f.getXYcorners = .absent "ERROR: Cannot use getXYcorners with lat-lon projection." ∧
    cmaqfile.ll2xy eng f lons lats =
      .absent "ERROR: GDTYPE=1. Cannot use ll2xy with lat-lon projection." ∧
    cmaqfile.xy2ll eng f X Y =
      .absent "ERROR: Cannot use ll2xy with lat-lon projection." ∧
    cmaqfile.ll2ij eng f lons lats =
      .absent "ERROR: Cannot use ll2ij with lat-lon projection." := by
  refine ⟨?_, ?_, ?_, ?_, ?_⟩ <;>
    simp [cmaqfile.getXYcenters, cmaqfile.getXYcorners, cmaqfile.ll2xy,
      cmaqfile.xy2ll, cmaqfile.ll2ij, h]

/-- Witness for C8 at a GDTYP = 1 file. -/
theorem C8_witness :
    (wgrid1.ds.GDTYP = 1) ∧
    (wgrid1.getXYcenters = .absent "ERROR: Cannot use getXYcenters with lat-lon projection." ∧
    wgrid1.getXYcorners = .absent "ERROR: Cannot use getXYcorners with lat-lon projection." ∧
    cmaqfile.ll2xy idEngine wgrid1 [0] [0] =
      .absent "ERROR: GDTYPE=1. Cannot use ll2xy with lat-lon projection." ∧
    cmaqfile.xy2ll idEngine wgrid1 [0] [0] =
      .absent "ERROR: Cannot use ll2xy with lat-lon projection." ∧
    cmaqfile.ll2ij idEngine wgrid1 [0] [0] =
      .absent "ERROR: Cannot use ll2ij with lat-lon projection.") :=
  ⟨by decide, C8_gdtyp1_all_absent idEngine wgrid1 (by decide) [0] [0] [0] [0]⟩

/-- C9 counterexample: on a record with the unsupported planar code
GDTYP = 7 and equal-length inputs, `ll2xy`, `xy2ll` and `ll2ij` do NOT
return an absent result — the unchecked `None` projection raises, so the
operations end in an uncaught exception. -/
theorem C9_counterexample :
    (cmaqfile.ll2xy idEngine wgrid7 [0] [0]).isAbsent = false ∧
    (cmaqfile.xy2ll idEngine wgrid7 [0] [0]).isAbsent = false ∧
    (cmaqfile.ll2ij idEngine wgrid7 [0] [0]).isAbsent = false ∧
    cmaqfile.ll2xy idEngine wgrid7 [0] [0] =
      .exn "AttributeError: NoneType object has no attribute transform_points" ∧
    cmaqfile.xy2ll idEngine wgrid7 [0] [0] =
      .exn "uncaught exception: transform_points called with NoneType source projection" ∧
    cmaqfile.ll2ij idEngine wgrid7 [0] [0] =
      .exn "AttributeError: NoneType object has no attribute transform_points" := by
  have hne : wgrid7.ds.GDTYP ≠ 1 := by decide
  have h2 : wgrid7.ds.GDTYP ≠ 2 := by decide
  have h6 : wgrid7.ds.GDTYP ≠ 6 := by decide
  have h3 : cmaqfile.ll2xy idEngine wgrid7 [0] [0] =
      .exn "AttributeError: NoneType object has no attribute transform_points" := by
    simp [cmaqfile.ll2xy, cmaqfile.getCMAQproj, hne, h2, h6]
  have h4 : cmaqfile.xy2ll idEngine wgrid7 [0] [0] =
      .exn "uncaught exception: transform_points called with NoneType source projection" := by
    simp [cmaqfile.xy2ll, cmaqfile.getCMAQproj, hne, h2, h6]
  have h5 : cmaqfile.ll2ij idEngine wgrid7 [0] [0] =
      .exn "AttributeError: NoneType object has no attribute transform_points" := by
    simp [cmaqfile.ll2ij, getXYcenters_eq wgrid7 hne, getXYcorners_eq wgrid7 hne,
      h3, hne]
  exact ⟨by rw [h3]; rfl, by rw [h4]; rfl, by rw [h5]; rfl, h3, h4, h5⟩

/-- C9 (amended): precondition violations are detected locally and reported
with an absent result for `getCMAQproj` (unsupported code), for GDTYP = 1 in
all planar operations, and for length mismatches in the transforms; BUT for a
planar record with GDTYP not in {1, 2, 6} and equal-length inputs, `ll2xy`,
`xy2ll` and `ll2ij` do raise an uncaught exception (the absent projection
returned by `getCMAQproj` is used without being checked) instead of returning
an absent result. -/
theorem C9_soft_fail_amended (eng : TransformEngine) (f : cmaqfile)
    (lons lats : List ℚ) (radius : ℚ) :
    (f.ds.GDTYP ≠ 2 → f.ds.GDTYP ≠ 6 →
      (f.getCMAQproj radius).isAbsent = true) ∧
    (f.ds.GDTYP = 1 →
      (cmaqfile.ll2xy eng f lons lats).isAbsent = true ∧
      (cmaqfile.xy2ll eng f lons lats).isAbsent = true ∧
      (cmaqfile.ll2ij eng f lons lats).isAbsent = true ∧
      f.getXYcenters.isAbsent = true ∧
      f.getXYcorners.isAbsent = true) ∧
    (f.ds.GDTYP ≠ 1 → lons.length ≠ lats.length →
      (cmaqfile.ll2xy eng f lons lats).isAbsent = true ∧
      (cmaqfile.xy2ll eng f lons lats).isAbsent = true ∧
      (cmaqfile.ll2ij eng f lons lats).isAbsent = true) ∧
    (f.ds.GDTYP ≠ 1 → f.ds.GDTYP ≠ 2 → f.ds.GDTYP ≠ 6 → lons.length = lats.length →
      cmaqfile.ll2xy eng f lons lats =
        .exn "AttributeError: NoneType object has no attribute transform_points" ∧
      cmaqfile.xy2ll eng f lons lats =
        .exn "uncaught exception: transform_points called with NoneType source projection" ∧
      cmaqfile.ll2ij eng f lons lats =
        .exn "AttributeError: NoneType object has no attribute transform_points") := by
  refine ⟨fun h2 h6 => ?_, fun h1 => ?_, fun h1 hlen => ?_, fun h1 h2 h6 hlen => ?_⟩
  · simp [cmaqfile.getCMAQproj, h2, h6, PyResult.isAbsent]
  · refine ⟨?_, ?_, ?_, ?_, ?_⟩ <;>
      simp [cmaqfile.ll2xy, cmaqfile.xy2ll, cmaqfile.ll2ij, cmaqfile.getXYcenters,
        cmaqfile.getXYcorners, h1, PyResult.isAbsent]
  · refine ⟨?_, ?_, ?_⟩ <;>
      simp [cmaqfile.ll2xy, cmaqfile.xy2ll, cmaqfile.ll2ij, h1, hlen, PyResult.isAbsent]
  · have h3 : cmaqfile.ll2xy eng f lons lats =
        .exn "AttributeError: NoneType object has no attribute transform_points" := by
      simp [cmaqfile.ll2xy, cmaqfile.getCMAQproj, h1, h2, h6, hlen]
    refine ⟨h3, ?_, ?_⟩
    · simp [cmaqfile.xy2ll, cmaqfile.getCMAQproj, h1, h2, h6, hlen]
    · simp [cmaqfile.ll2ij, getXYcenters_eq f h1, getXYcorners_eq f h1, h3, h1, hlen]

/-- Witness for the amended C9 at GDTYP = 7 (raising cases) and GDTYP = 1 /
length-mismatch (soft-fail cases). -/
theorem C9_witness :
    ((wgrid7.ds.GDTYP ≠ 2 ∧ wgrid7.ds.GDTYP ≠ 6) ∧
      (wgrid7.getCMAQproj 6370000).isAbsent = true) ∧
    (wgrid1.ds.GDTYP = 1 ∧
      (cmaqfile.ll2xy idEngine wgrid1 [0] [0]).isAbsent = true) ∧
    ((wgrid.ds.GDTYP ≠ 1 ∧ ([0] : List ℚ).length ≠ ([0, 0] : List ℚ).length) ∧
      (cmaqfile.ll2ij idEngine wgrid [0] [0, 0]).isAbsent = true) ∧
    ((wgrid7.ds.GDTYP ≠ 1 ∧ wgrid7.ds.GDTYP ≠ 2 ∧ wgrid7.ds.GDTYP ≠ 6 ∧
        ([0] : List ℚ).length = ([0] : List ℚ).length) ∧
      cmaqfile.ll2ij idEngine wgrid7 [0] [0] =
        .exn "AttributeError: NoneType object has no attribute transform_points") :=
  ⟨⟨⟨by decide, by decide⟩,
     (C9_soft_fail_amended idEngine wgrid7 [0] [0] 6370000).1 (by decide) (by decide)⟩,
   ⟨by decide,
     ((C9_soft_fail_amended idEngine wgrid1 [0] [0] 6370000).2.1 (by decide)).1⟩,
   ⟨⟨by decide, by decide⟩,
     ((C9_soft_fail_amended idEngine wgrid [0] [0, 0] 6370000).2.2.1
       (by decide) (by decide)).2.2⟩,
   ⟨⟨by decide, by decide, by decide, by decide⟩,
     ((C9_soft_fail_amended idEngine wgrid7 [0] [0] 6370000).2.2.2
       (by decide) (by decide) (by decide) (by decide)).2.2⟩⟩

/-! ### The first-minimum property of `argmin` -/

theorem argmin_spec (l : List ℚ) (hne : l ≠ []) :
    ∃ h : argmin l < l.length,
      (∀ k (hk : k < l.length), l.get ⟨argmin l, h⟩ ≤ l.get ⟨k, hk⟩) ∧
      (∀ k (hk : k < l.length), k < argmin l → l.get ⟨argmin l, h⟩ < l.get ⟨k, hk⟩) := by
  obtain ⟨m, hm⟩ : ∃ m, l.min? = some m := by
    cases hl : l.min? with
    | none => exact absurd (List.min?_eq_none_iff.mp hl) hne
    | some m => exact ⟨m, rfl⟩
  have hmem : m ∈ l := List.min?_mem (fun a b => min_choice a b) hm
  have hmin : ∀ b ∈ l, m ≤ b :=
    (List.le_min?_iff (fun a b c => le_min_iff) hm).1 (le_refl m)
  have hlt : argmin l < l.length := by
    rw [argmin, hm]
    exact List.findIdx_lt_length.mpr ⟨m, hmem, by simp⟩
  have hlt2 : l.findIdx (fun a => decide (a = m)) < l.length := by rwa [argmin, hm] at hlt
  have hval : l.get ⟨argmin l, hlt⟩ = m := by
    have h2 := @List.findIdx_getElem ℚ (fun a => decide (a = m)) l hlt2
    simp only [decide_eq_true_eq] at h2
    simp only [argmin, hm, List.get_eq_getElem]
    exact h2
  refine ⟨hlt, fun k hk => ?_, fun k hk hklt => ?_⟩
  · rw [hval]
    exact hmin _ (List.get_mem l k hk)
  · rw [hval]
    have hkidx : k < l.findIdx (fun a => decide (a = m)) := by rwa [argmin, hm] at hklt
    have hne2 := List.not_of_lt_findIdx hkidx
    simp only [decide_eq_false_iff_not] at hne2
    have : l.get ⟨k, hk⟩ ≠ m := by
      simpa [List.get_eq_getElem] using hne2
    exact lt_of_le_of_ne (hmin _ (List.get_mem l k hk)) (Ne.symm this)

theorem argmin_abs_of_eq_center (Xc : List ℚ) (x : ℚ)
    (hinj : ∀ a b (ha : a < Xc.length) (hb : b < Xc.length),
      Xc.get ⟨a, ha⟩ = Xc.get ⟨b, hb⟩ → a = b)
    (c : ℕ) (hc : c < Xc.length) (hx : x = Xc.get ⟨c, hc⟩) :
    argmin (Xc.map (fun v => |v - x|)) = c := by
  have hlen : (Xc.map (fun v => |v - x|)).length = Xc.length := List.length_map _ _
  have hne : Xc.map (fun v => |v - x|) ≠ [] := by
    apply List.ne_nil_of_length_pos
    rw [hlen]
    exact Nat.lt_of_le_of_lt (Nat.zero_le c) hc
  obtain ⟨ham, hmin, -⟩ := argmin_spec _ hne
  have ham2 : argmin (Xc.map (fun v => |v - x|)) < Xc.length := hlen ▸ ham
  have hc2 : c < (Xc.map (fun v => |v - x|)).length := hlen ▸ hc
  have hcval : (Xc.map (fun v => |v - x|)).get ⟨c, hc2⟩ = 0 := by
    simp only [List.get_eq_getElem, List.getElem_map]
    simp [hx]
  have hamval : (Xc.map (fun v => |v - x|)).get ⟨argmin (Xc.map (fun v => |v - x|)), ham⟩ =
      |Xc.get ⟨argmin (Xc.map (fun v => |v - x|)), ham2⟩ - x| := by
    simp only [List.get_eq_getElem, List.getElem_map]
  have h0 : |Xc.get ⟨argmin (Xc.map (fun v => |v - x|)), ham2⟩ - x| = 0 := by
    have hle := hmin c hc2
    rw [hcval, hamval] at hle
    exact le_antisymm hle (abs_nonneg _)
  have hxeq : Xc.get ⟨argmin (Xc.map (fun v => |v - x|)), ham2⟩ = Xc.get ⟨c, hc⟩ := by
    have := abs_eq_zero.mp h0
    rw [← hx]
    linarith
  exact hinj _ _ ham2 hc hxeq

theorem arange_inj (start stop step : ℚ) (hstep : step ≠ 0) :
    ∀ a b (ha : a < (arange start stop step).length)
      (hb : b < (arange start stop step).length),
      (arange start stop step).get ⟨a, ha⟩ = (arange start stop step).get ⟨b, hb⟩ →
      a = b := by
  intro a b ha hb h
  rw [arange_get, arange_get] at h
  have h2 : (a : ℚ) * step = (b : ℚ) * step := by linarith
  have h3 : (a : ℚ) = (b : ℚ) := mul_right_cancel₀ hstep h2
  exact_mod_cast h3

/-! ### Nonempty corner meshes -/

theorem meshgrid_fst_flatten_ne_nil (X Y : List ℚ) (hX : X ≠ []) (hY : Y ≠ []) :
    (meshgrid X Y).1.flatten ≠ [] := by
  rw [List.flatten_ne_nil_iff]
  refine ⟨X, ?_, hX⟩
  simp only [meshgrid, List.mem_map]
  obtain ⟨y, hy⟩ := List.exists_mem_of_ne_nil Y hY
  exact ⟨y, hy, trivial⟩

theorem meshgrid_snd_flatten_ne_nil (X Y : List ℚ) (hX : X ≠ []) (hY : Y ≠ []) :
    (meshgrid X Y).2.flatten ≠ [] := by
  rw [List.flatten_ne_nil_iff]
  obtain ⟨y, hy⟩ := List.exists_mem_of_ne_nil Y hY
  refine ⟨X.map (fun _ => y), ?_, ?_⟩
  · simp only [meshgrid, List.mem_map]
    exact ⟨y, hy, rfl⟩
  · simpa using hX

/-! ### The per-point loop of `ll2ij` -/

theorem ll2ijLoop_eq (Xc Yc : List ℚ) (Xcorn Ycorn : List (List ℚ))
    (xmn xmx ymn ymx : ℚ)
    (h1 : Xcorn.flatten.min? = some xmn) (h2 : Xcorn.flatten.max? = some xmx)
    (h3 : Ycorn.flatten.min? = some ymn) (h4 : Ycorn.flatten.max? = some ymx)
    (hXc : Xc ≠ []) (hYc : Yc ≠ []) (pts : List (ℚ × ℚ)) :
    ll2ijLoop Xc Yc Xcorn Ycorn pts = .ok
      (pts.map (fun q => if q.1 < xmn ∨ q.1 > xmx then none
        else if q.2 < ymn ∨ q.2 > ymx then none
        else some (argmin (Xc.map (fun c => |c - q.1|)))),
       pts.map (fun q => if q.1 < xmn ∨ q.1 > xmx then none
        else if q.2 < ymn ∨ q.2 > ymx then none
        else some (argmin (Yc.map (fun c => |c - q.2|))))) := by
  induction pts with
  | nil => rfl
  | cons q rest ih =>
    obtain ⟨x, y⟩ := q
    have hempty : ¬(Xc.isEmpty ∨ Yc.isEmpty) := by
      simp only [List.isEmpty_iff]
      push_neg
      exact ⟨hXc, hYc⟩
    simp only [ll2ijLoop, h1, h2, h3, h4, ih, List.map_cons]
    by_cases hx : x < xmn ∨ x > xmx
    · simp only [if_pos hx, consIJ]
    · by_cases hy : y < ymn ∨ y > ymx
      · simp only [if_neg hx, if_pos hy, consIJ]
      · simp only [if_neg hx, if_neg hy, if_neg hempty, consIJ]

/-! ### Evaluating `ll2xy` and `ll2ij` on supported projections -/

theorem min?_isSome_of_ne_nil {l : List ℚ} (h : l ≠ []) : ∃ v, l.min? = some v := by
  cases hm : l.min? with
  | none => exact absurd (List.min?_eq_none_iff.mp hm) h
  | some v => exact ⟨v, rfl⟩

theorem max?_isSome_of_ne_nil {l : List ℚ} (h : l ≠ []) : ∃ v, l.max? = some v := by
  cases hm : l.max? with
  | none => exact absurd (List.max?_eq_none_iff.mp hm) h
  | some v => exact ⟨v, rfl⟩

theorem ll2xy_eval (eng : TransformEngine) (f : cmaqfile)
    (hG : f.ds.GDTYP = 2 ∨ f.ds.GDTYP = 6)
    (lons lats : List ℚ) (hlen : lons.length = lats.length) :
    ∃ proj : CMAQproj, f.getCMAQproj defaultRadius = .ok proj ∧
      cmaqfile.ll2xy eng f lons lats = .ok
        (((lons.zip lats).map (fun q => eng proj q.1 q.2)).map (fun t => t.1),
         ((lons.zip lats).map (fun q => eng proj q.1 q.2)).map (fun t => t.2.1)) := by
  have hne1 : f.ds.GDTYP ≠ 1 := by rcases hG with h | h <;> rw [h] <;> decide
  have hproj : ∃ proj, f.getCMAQproj defaultRadius = .ok proj := by
    rcases hG with h | h
    · exact ⟨.lambertConformal f.ds.XCENT f.ds.YCENT (f.ds.P_ALP, f.ds.P_BET)
        ⟨defaultRadius, defaultRadius⟩, by simp [cmaqfile.getCMAQproj, h]⟩
    · exact ⟨.northPolarStereo f.ds.XCENT f.ds.P_BET
        ⟨defaultRadius, defaultRadius⟩, by simp [cmaqfile.getCMAQproj, h]⟩
  obtain ⟨proj, hp⟩ := hproj
  exact ⟨proj, hp, by simp [cmaqfile.ll2xy, hne1, hlen, hp]⟩

theorem ll2ij_loop_form (eng : TransformEngine) (f : cmaqfile)
    (hG : f.ds.GDTYP = 2 ∨ f.ds.GDTYP = 6)
    (hxc : 0 < f.ds.XCELL) (hyc : 0 < f.ds.YCELL)
    (hnc : 0 < f.ds.NCOLS) (hnr : 0 < f.ds.NROWS)
    (lons lats : List ℚ) (hlen : lons.length = lats.length) :
    ∃ (Xc Yc : List ℚ) (Xcorn Ycorn : List (List ℚ))
      (xmn xmx ymn ymx : ℚ) (xpts ypts : List ℚ),
      f.getXYcenters = .ok (Xc, Yc) ∧
      f.getXYcorners = .ok (Xcorn, Ycorn) ∧
      Xc = arange (f.ds.XORIG + f.ds.XCELL / 2)
        (f.ds.XORIG + f.ds.XCELL * (f.ds.NCOLS : ℚ)) f.ds.XCELL ∧
      Yc = arange (f.ds.YORIG + f.ds.YCELL / 2)
        (f.ds.YORIG + f.ds.YCELL * (f.ds.NROWS : ℚ)) f.ds.YCELL ∧
      Xc.length = f.ds.NCOLS ∧ Yc.length = f.ds.NROWS ∧ Xc ≠ [] ∧ Yc ≠ [] ∧
      Xcorn.flatten.min? = some xmn ∧ Xcorn.flatten.max? = some xmx ∧
      Ycorn.flatten.min? = some ymn ∧ Ycorn.flatten.max? = some ymx ∧
      cmaqfile.ll2xy eng f lons lats = .ok (xpts, ypts) ∧
      (xpts.zip ypts).length = lons.length ∧
      cmaqfile.ll2ij eng f lons lats = .ok
        ((xpts.zip ypts).map (fun q => if q.1 < xmn ∨ q.1 > xmx then none
          else if q.2 < ymn ∨ q.2 > ymx then none
          else some (argmin (Xc.map (fun c => |c - q.1|)))),
         (xpts.zip ypts).map (fun q => if q.1 < xmn ∨ q.1 > xmx then none
          else if q.2 < ymn ∨ q.2 > ymx then none
          else some (argmin (Yc.map (fun c => |c - q.2|))))) := by
  have hne1 : f.ds.GDTYP ≠ 1 := by rcases hG with h | h <;> rw [h] <;> decide
  obtain ⟨proj, hp, hll⟩ := ll2xy_eval eng f hG lons lats hlen
  have hXcLen := centers_length f.ds.XORIG f.ds.XCELL hxc f.ds.NCOLS
  have hYcLen := centers_length f.ds.YORIG f.ds.YCELL hyc f.ds.NROWS
  have hXcNe : arange (f.ds.XORIG + f.ds.XCELL / 2)
      (f.ds.XORIG + f.ds.XCELL * (f.ds.NCOLS : ℚ)) f.ds.XCELL ≠ [] := by
    apply List.ne_nil_of_length_pos
    rw [hXcLen]
    exact hnc
  have hYcNe : arange (f.ds.YORIG + f.ds.YCELL / 2)
      (f.ds.YORIG + f.ds.YCELL * (f.ds.NROWS : ℚ)) f.ds.YCELL ≠ [] := by
    apply List.ne_nil_of_length_pos
    rw [hYcLen]
    exact hnr
  have hXeNe : arange f.ds.XORIG
      (f.ds.XORIG + f.ds.XCELL * (f.ds.NCOLS : ℚ) + f.ds.XCELL) f.ds.XCELL ≠ [] := by
    apply List.ne_nil_of_length_pos
    rw [corners_length _ _ hxc]
    exact Nat.succ_pos _
  have hYeNe : arange f.ds.YORIG
      (f.ds.YORIG + f.ds.YCELL * (f.ds.NROWS : ℚ) + f.ds.YCELL) f.ds.YCELL ≠ [] := by
    apply List.ne_nil_of_length_pos
    rw [corners_length _ _ hyc]
    exact Nat.succ_pos _
  have hXcornNe := meshgrid_fst_flatten_ne_nil _ _ hXeNe hYeNe
  have hYcornNe := meshgrid_snd_flatten_ne_nil _ _ hXeNe hYeNe
  obtain ⟨xmn, hxmn⟩ := min?_isSome_of_ne_nil hXcornNe
  obtain ⟨xmx, hxmx⟩ := max?_isSome_of_ne_nil hXcornNe
  obtain ⟨ymn, hymn⟩ := min?_isSome_of_ne_nil hYcornNe
  obtain ⟨ymx, hymx⟩ := max?_isSome_of_ne_nil hYcornNe
  refine ⟨_, _, _, _, xmn, xmx, ymn, ymx, _, _,
    getXYcenters_eq f hne1, getXYcorners_eq f hne1, rfl, rfl,
    hXcLen, hYcLen, hXcNe, hYcNe, hxmn, hxmx, hymn, hymx, hll, ?_, ?_⟩
  · simp [List.length_zip, hlen]
  · have hstep : cmaqfile.ll2ij eng f lons lats = ll2ijLoop
        (arange (f.ds.XORIG + f.ds.XCELL / 2)
          (f.ds.XORIG + f.ds.XCELL * (f.ds.NCOLS : ℚ)) f.ds.XCELL)
        (arange (f.ds.YORIG + f.ds.YCELL / 2)
          (f.ds.YORIG + f.ds.YCELL * (f.ds.NROWS : ℚ)) f.ds.YCELL)
        (meshgrid
          (arange f.ds.XORIG (f.ds.XORIG + f.ds.XCELL * (f.ds.NCOLS : ℚ) + f.ds.XCELL) f.ds.XCELL)
          (arange f.ds.YORIG (f.ds.YORIG + f.ds.YCELL * (f.ds.NROWS : ℚ) + f.ds.YCELL) f.ds.YCELL)).1
        (meshgrid
          (arange f.ds.XORIG (f.ds.XORIG + f.ds.XCELL * (f.ds.NCOLS : ℚ) + f.ds.XCELL) f.ds.XCELL)
          (arange f.ds.YORIG (f.ds.YORIG + f.ds.YCELL * (f.ds.NROWS : ℚ) + f.ds.YCELL) f.ds.YCELL)).2
        ((((lons.zip lats).map (fun q => eng proj q.1 q.2)).map (fun t => t.1)).zip
         (((lons.zip lats).map (fun q => eng proj q.1 q.2)).map (fun t => t.2.1))) := by
      simp [cmaqfile.ll2ij, hne1, hlen, getXYcenters_eq f hne1, getXYcorners_eq f hne1, hll]
    rw [hstep, ll2ijLoop_eq _ _ _ _ xmn xmx ymn ymx hxmn hxmx hymn hymx hXcNe hYcNe]

theorem min?_le_max? {l : List ℚ} {a b : ℚ} (h1 : l.min? = some a)
    (h2 : l.max? = some b) : a ≤ b := by
  have hmem := List.min?_mem (fun a b => min_choice a b) h1
  have hle := (List.max?_le_iff (fun a b c => max_le_iff) h2).1 (le_refl b)
  exact hle _ hmem

/-- C1: on a supported planar projection (GDTYP = 2 or 6) with a well-formed
grid, for every input point whose transformed planar coordinates (x, y) lie
inside the corner bounding box, `ll2ij` returns the index of the X-center
closest to x and the index of the Y-center closest to y (ties to the lowest
index: every earlier center is strictly farther); in particular a point
exactly at a cell center receives that cell's exact zero-based indices. -/
theorem C1_ll2ij_inside_nearest (eng : TransformEngine) (f : cmaqfile)
    (hG : f.ds.GDTYP = 2 ∨ f.ds.GDTYP = 6)
    (hxc : 0 < f.ds.XCELL) (hyc : 0 < f.ds.YCELL)
    (hnc : 0 < f.ds.NCOLS) (hnr : 0 < f.ds.NROWS)
    (lons lats : List ℚ) (hlen : lons.length = lats.length) :
    ∃ (Xc Yc : List ℚ) (Xcorn Ycorn : List (List ℚ)) (xmn xmx ymn ymx : ℚ)
      (xpts ypts : List ℚ) (i j : List (Option ℕ)),
      f.getXYcenters = .ok (Xc, Yc) ∧
      f.getXYcorners = .ok (Xcorn, Ycorn) ∧
      Xcorn.flatten.min? = some xmn ∧ Xcorn.flatten.max? = some xmx ∧
      Ycorn.flatten.min? = some ymn ∧ Ycorn.flatten.max? = some ymx ∧
      cmaqfile.ll2xy eng f lons lats = .ok (xpts, ypts) ∧
      cmaqfile.ll2ij eng f lons lats = .ok (i, j) ∧
      ∀ (p : ℕ) (x y : ℚ), xpts[p]? = some x → ypts[p]? = some y →
        xmn ≤ x → x ≤ xmx → ymn ≤ y → y ≤ ymx →
        ∃ (ix iy : ℕ) (hix : ix < Xc.length) (hiy : iy < Yc.length),
          i[p]? = some (some ix) ∧ j[p]? = some (some iy) ∧
          (∀ k (hk : k < Xc.length), |Xc.get ⟨ix, hix⟩ - x| ≤ |Xc.get ⟨k, hk⟩ - x|) ∧
          (∀ k (hk : k < Xc.length), k < ix → |Xc.get ⟨ix, hix⟩ - x| < |Xc.get ⟨k, hk⟩ - x|) ∧
          (∀ k (hk : k < Yc.length), |Yc.get ⟨iy, hiy⟩ - y| ≤ |Yc.get ⟨k, hk⟩ - y|) ∧
          (∀ k (hk : k < Yc.length), k < iy → |Yc.get ⟨iy, hiy⟩ - y| < |Yc.get ⟨k, hk⟩ - y|) ∧
          (∀ c (hc : c < Xc.length), x = Xc.get ⟨c, hc⟩ → ix = c) ∧
          (∀ r (hr : r < Yc.length), y = Yc.get ⟨r, hr⟩ → iy = r) := by
  obtain ⟨Xc, Yc, Xcorn, Ycorn, xmn, xmx, ymn, ymx, xpts, ypts, hcent, hcorn,
    hXeq, hYeq, hXlen, hYlen, hXne, hYne, hxmn, hxmx, hymn, hymx, hll, hziplen, hij⟩ :=
    ll2ij_loop_form eng f hG hxc hyc hnc hnr lons lats hlen
  refine ⟨Xc, Yc, Xcorn, Ycorn, xmn, xmx, ymn, ymx, xpts, ypts, _, _,
    hcent, hcorn, hxmn, hxmx, hymn, hymx, hll, hij, ?_⟩
  intro p x y hxp hyp hx1 hx2 hy1 hy2
  have hzip : (xpts.zip ypts)[p]? = some (x, y) :=
    List.getElem?_zip_eq_some.mpr ⟨hxp, hyp⟩
  have hnotx : ¬(x < xmn ∨ x > xmx) := by
    simp only [gt_iff_lt, not_or, not_lt]
    exact ⟨hx1, hx2⟩
  have hnoty : ¬(y < ymn ∨ y > ymx) := by
    simp only [gt_iff_lt, not_or, not_lt]
    exact ⟨hy1, hy2⟩
  have hXmapne : Xc.map (fun c => |c - x|) ≠ [] := by
    intro hnil
    exact hXne (List.map_eq_nil_iff.mp hnil)
  have hYmapne : Yc.map (fun c => |c - y|) ≠ [] := by
    intro hnil
    exact hYne (List.map_eq_nil_iff.mp hnil)
  obtain ⟨hamX, hminX, hstrX⟩ := argmin_spec _ hXmapne
  obtain ⟨hamY, hminY, hstrY⟩ := argmin_spec _ hYmapne
  have hix : argmin (Xc.map (fun c => |c - x|)) < Xc.length := by
    simpa using hamX
  have hiy : argmin (Yc.map (fun c => |c - y|)) < Yc.length := by
    simpa using hamY
  have hip : ((xpts.zip ypts).map (fun q => if q.1 < xmn ∨ q.1 > xmx then none
      else if q.2 < ymn ∨ q.2 > ymx then none
      else some (argmin (Xc.map (fun c => |c - q.1|)))))[p]? =
      some (some (argmin (Xc.map (fun c => |c - x|)))) := by
    rw [List.getElem?_map, hzip]
    simp only [Option.map_some']
    rw [if_neg hnotx, if_neg hnoty]
  have hjp : ((xpts.zip ypts).map (fun q => if q.1 < xmn ∨ q.1 > xmx then none
      else if q.2 < ymn ∨ q.2 > ymx then none
      else some (argmin (Yc.map (fun c => |c - q.2|)))))[p]? =
      some (some (argmin (Yc.map (fun c => |c - y|)))) := by
    rw [List.getElem?_map, hzip]
    simp only [Option.map_some']
    rw [if_neg hnotx, if_neg hnoty]
  refine ⟨argmin (Xc.map (fun c => |c - x|)), argmin (Yc.map (fun c => |c - y|)),
    hix, hiy, hip, hjp, ?_, ?_, ?_, ?_, ?_, ?_⟩
  · intro k hk
    have hk2 : k < (Xc.map (fun c => |c - x|)).length := by simpa using hk
    have h3 := hminX k hk2
    simpa [List.get_eq_getElem, List.getElem_map] using h3
  · intro k hk hklt
    have hk2 : k < (Xc.map (fun c => |c - x|)).length := by simpa using hk
    have h3 := hstrX k hk2 hklt
    simpa [List.get_eq_getElem, List.getElem_map] using h3
  · intro k hk
    have hk2 : k < (Yc.map (fun c => |c - y|)).length := by simpa using hk
    have h3 := hminY k hk2
    simpa [List.get_eq_getElem, List.getElem_map] using h3
  · intro k hk hklt
    have hk2 : k < (Yc.map (fun c => |c - y|)).length := by simpa using hk
    have h3 := hstrY k hk2 hklt
    simpa [List.get_eq_getElem, List.getElem_map] using h3
  · intro c hc hxeq2
    apply argmin_abs_of_eq_center Xc x ?_ c hc hxeq2
    intro a b ha hb heq
    revert ha hb heq
    rw [hXeq]
    intro ha hb heq
    exact arange_inj _ _ _ (ne_of_gt hxc) a b ha hb heq
  · intro r hr hyeq2
    apply argmin_abs_of_eq_center Yc y ?_ r hr hyeq2
    intro a b ha hb heq
    revert ha hb heq
    rw [hYeq]
    intro ha hb heq
    exact arange_inj _ _ _ (ne_of_gt hyc) a b ha hb heq

/-- Witness for C1 at the example LCC grid with the identity engine. -/
theorem C1_witness :
    ((wgrid.ds.GDTYP = 2 ∨ wgrid.ds.GDTYP = 6) ∧ 0 < wgrid.ds.XCELL ∧
      0 < wgrid.ds.YCELL ∧ 0 < wgrid.ds.NCOLS ∧ 0 < wgrid.ds.NROWS ∧
      ([0] : List ℚ).length = ([0] : List ℚ).length) ∧
    (∃ (Xc Yc : List ℚ) (Xcorn Ycorn : List (List ℚ)) (xmn xmx ymn ymx : ℚ)
      (xpts ypts : List ℚ) (i j : List (Option ℕ)),
      wgrid.getXYcenters = .ok (Xc, Yc) ∧
      wgrid.getXYcorners = .ok (Xcorn, Ycorn) ∧
      Xcorn.flatten.min? = some xmn ∧ Xcorn.flatten.max? = some xmx ∧
      Ycorn.flatten.min? = some ymn ∧ Ycorn.flatten.max? = some ymx ∧
      cmaqfile.ll2xy idEngine wgrid [0] [0] = .ok (xpts, ypts) ∧
      cmaqfile.ll2ij idEngine wgrid [0] [0] = .ok (i, j) ∧
      ∀ (p : ℕ) (x y : ℚ), xpts[p]? = some x → ypts[p]? = some y →
        xmn ≤ x → x ≤ xmx → ymn ≤ y → y ≤ ymx →
        ∃ (ix iy : ℕ) (hix : ix < Xc.length) (hiy : iy < Yc.length),
          i[p]? = some (some ix) ∧ j[p]? = some (some iy) ∧
          (∀ k (hk : k < Xc.length), |Xc.get ⟨ix, hix⟩ - x| ≤ |Xc.get ⟨k, hk⟩ - x|) ∧
          (∀ k (hk : k < Xc.length), k < ix → |Xc.get ⟨ix, hix⟩ - x| < |Xc.get ⟨k, hk⟩ - x|) ∧
          (∀ k (hk : k < Yc.length), |Yc.get ⟨iy, hiy⟩ - y| ≤ |Yc.get ⟨k, hk⟩ - y|) ∧
          (∀ k (hk : k < Yc.length), k < iy → |Yc.get ⟨iy, hiy⟩ - y| < |Yc.get ⟨k, hk⟩ - y|) ∧
          (∀ c (hc : c < Xc.length), x = Xc.get ⟨c, hc⟩ → ix = c) ∧
          (∀ r (hr : r < Yc.length), y = Yc.get ⟨r, hr⟩ → iy = r)) :=
  ⟨⟨by decide, by decide, by decide, by decide, by decide, by decide⟩,
   C1_ll2ij_inside_nearest idEngine wgrid (by decide) (by decide) (by decide)
     (by decide) (by decide) [0] [0] (by decide)⟩

/-- C2: on a supported planar projection with a well-formed grid, every input
point whose transformed planar x is outside [min Xcorners, max Xcorners] OR
whose y is outside [min Ycorners, max Ycorners] receives the missing-value
marker (NaN, modelled `none`) for both indices, and the output index lists
have the same length as the inputs. -/
theorem C2_ll2ij_outside_nan (eng : TransformEngine) (f : cmaqfile)
    (hG : f.ds.GDTYP = 2 ∨ f.ds.GDTYP = 6)
    (hxc : 0 < f.ds.XCELL) (hyc : 0 < f.ds.YCELL)
    (hnc : 0 < f.ds.NCOLS) (hnr : 0 < f.ds.NROWS)
    (lons lats : List ℚ) (hlen : lons.length = lats.length) :
    ∃ (Xcorn Ycorn : List (List ℚ)) (xmn xmx ymn ymx : ℚ)
      (xpts ypts : List ℚ) (i j : List (Option ℕ)),
      f.getXYcorners = .ok (Xcorn, Ycorn) ∧
      Xcorn.flatten.min? = some xmn ∧ Xcorn.flatten.max? = some xmx ∧
      Ycorn.flatten.min? = some ymn ∧ Ycorn.flatten.max? = some ymx ∧
      cmaqfile.ll2xy eng f lons lats = .ok (xpts, ypts) ∧
      cmaqfile.ll2ij eng f lons lats = .ok (i, j) ∧
      i.length = lons.length ∧ j.length = lats.length ∧
      ∀ (p : ℕ) (x y : ℚ), xpts[p]? = some x → ypts[p]? = some y →
        ((x < xmn ∨ x > xmx) ∨ (y < ymn ∨ y > ymx)) →
        i[p]? = some none ∧ j[p]? = some none := by
  obtain ⟨Xc, Yc, Xcorn, Ycorn, xmn, xmx, ymn, ymx, xpts, ypts, hcent, hcorn,
    hXeq, hYeq, hXlen, hYlen, hXne, hYne, hxmn, hxmx, hymn, hymx, hll, hziplen, hij⟩ :=
    ll2ij_loop_form eng f hG hxc hyc hnc hnr lons lats hlen
  refine ⟨Xcorn, Ycorn, xmn, xmx, ymn, ymx, xpts, ypts, _, _,
    hcorn, hxmn, hxmx, hymn, hymx, hll, hij, ?_, ?_, ?_⟩
  · rw [List.length_map]
    exact hziplen
  · rw [List.length_map, hziplen]
    exact hlen
  · intro p x y hxp hyp hout
    have hzip : (xpts.zip ypts)[p]? = some (x, y) :=
      List.getElem?_zip_eq_some.mpr ⟨hxp, hyp⟩
    constructor
    · rw [List.getElem?_map, hzip]
      simp only [Option.map_some']
      rcases hout with hx | hy
      · rw [if_pos hx]
      · by_cases hx : x < xmn ∨ x > xmx
        · rw [if_pos hx]
        · rw [if_neg hx, if_pos hy]
    · rw [List.getElem?_map, hzip]
      simp only [Option.map_some']
      rcases hout with hx | hy
      · rw [if_pos hx]
      · by_cases hx : x < xmn ∨ x > xmx
        · rw [if_pos hx]
        · rw [if_neg hx, if_pos hy]

/-- Witness for C2 at the example LCC grid with the identity engine. -/
theorem C2_witness :
    ((wgrid.ds.GDTYP = 2 ∨ wgrid.ds.GDTYP = 6) ∧ 0 < wgrid.ds.XCELL ∧
      0 < wgrid.ds.YCELL ∧ 0 < wgrid.ds.NCOLS ∧ 0 < wgrid.ds.NROWS ∧
      ([100] : List ℚ).length = ([100] : List ℚ).length) ∧
    (∃ (Xcorn Ycorn : List (List ℚ)) (xmn xmx ymn ymx : ℚ)
      (xpts ypts : List ℚ) (i j : List (Option ℕ)),
      wgrid.getXYcorners = .ok (Xcorn, Ycorn) ∧
      Xcorn.flatten.min? = some xmn ∧ Xcorn.flatten.max? = some xmx ∧
      Ycorn.flatten.min? = some ymn ∧ Ycorn.flatten.max? = some ymx ∧
      cmaqfile.ll2xy idEngine wgrid [100] [100] = .ok (xpts, ypts) ∧
      cmaqfile.ll2ij idEngine wgrid [100] [100] = .ok (i, j) ∧
      i.length = ([100] : List ℚ).length ∧ j.length = ([100] : List ℚ).length ∧
      ∀ (p : ℕ) (x y : ℚ), xpts[p]? = some x → ypts[p]? = some y →
        ((x < xmn ∨ x > xmx) ∨ (y < ymn ∨ y > ymx)) →
        i[p]? = some none ∧ j[p]? = some none) :=
  ⟨⟨by decide, by decide, by decide, by decide, by decide, by decide⟩,
   C2_ll2ij_outside_nan idEngine wgrid (by decide) (by decide) (by decide)
     (by decide) (by decide) [100] [100] (by decide)⟩

/-- C10: the domain-membership test of `ll2ij` uses strict inequalities, so a
point whose transformed x equals exactly min(Xcorners) or max(Xcorners) with y
within the Y-range (or symmetrically for y on its boundary with x within the
X-range) is treated as inside and receives nearest-center indices, not the
missing-value marker. -/
theorem C10_ll2ij_boundary_inclusive (eng : TransformEngine) (f : cmaqfile)
    (hG : f.ds.GDTYP = 2 ∨ f.ds.GDTYP = 6)
    (hxc : 0 < f.ds.XCELL) (hyc : 0 < f.ds.YCELL)
    (hnc : 0 < f.ds.NCOLS) (hnr : 0 < f.ds.NROWS)
    (lons lats : List ℚ) (hlen : lons.length = lats.length) :
    ∃ (Xc Yc : List ℚ) (Xcorn Ycorn : List (List ℚ)) (xmn xmx ymn ymx : ℚ)
      (xpts ypts : List ℚ) (i j : List (Option ℕ)),
      f.getXYcenters = .ok (Xc, Yc) ∧
      f.getXYcorners = .ok (Xcorn, Ycorn) ∧
      Xcorn.flatten.min? = some xmn ∧ Xcorn.flatten.max? = some xmx ∧
      Ycorn.flatten.min? = some ymn ∧ Ycorn.flatten.max? = some ymx ∧
      cmaqfile.ll2xy eng f lons lats = .ok (xpts, ypts) ∧
      cmaqfile.ll2ij eng f lons lats = .ok (i, j) ∧
      ∀ (p : ℕ) (x y : ℚ), xpts[p]? = some x → ypts[p]? = some y →
        (((x = xmn ∨ x = xmx) ∧ ymn ≤ y ∧ y ≤ ymx) ∨
         ((y = ymn ∨ y = ymx) ∧ xmn ≤ x ∧ x ≤ xmx)) →
        ∃ (ix iy : ℕ), ix < Xc.length ∧ iy < Yc.length ∧
          i[p]? = some (some ix) ∧ j[p]? = some (some iy) := by
  obtain ⟨Xc, Yc, Xcorn, Ycorn, xmn, xmx, ymn, ymx, xpts, ypts, hcent, hcorn,
    hXeq, hYeq, hXlen, hYlen, hXne, hYne, hxmn, hxmx, hymn, hymx, hll, hziplen, hij⟩ :=
    ll2ij_loop_form eng f hG hxc hyc hnc hnr lons lats hlen
  have hxmm : xmn ≤ xmx := min?_le_max? hxmn hxmx
  have hymm : ymn ≤ ymx := min?_le_max? hymn hymx
  refine ⟨Xc, Yc, Xcorn, Ycorn, xmn, xmx, ymn, ymx, xpts, ypts, _, _,
    hcent, hcorn, hxmn, hxmx, hymn, hymx, hll, hij, ?_⟩
  intro p x y hxp hyp hbnd
  have hin : xmn ≤ x ∧ x ≤ xmx ∧ ymn ≤ y ∧ y ≤ ymx := by
    rcases hbnd with ⟨hx, hy1, hy2⟩ | ⟨hy, hx1, hx2⟩
    · rcases hx with rfl | rfl
      · exact ⟨le_refl _, hxmm, hy1, hy2⟩
      · exact ⟨hxmm, le_refl _, hy1, hy2⟩
    · rcases hy with rfl | rfl
      · exact ⟨hx1, hx2, le_refl _, hymm⟩
      · exact ⟨hx1, hx2, hymm, le_refl _⟩
  obtain ⟨hx1, hx2, hy1, hy2⟩ := hin
  have hzip : (xpts.zip ypts)[p]? = some (x, y) :=
    List.getElem?_zip_eq_some.mpr ⟨hxp, hyp⟩
  have hnotx : ¬(x < xmn ∨ x > xmx) := by
    simp only [gt_iff_lt, not_or, not_lt]
    exact ⟨hx1, hx2⟩
  have hnoty : ¬(y < ymn ∨ y > ymx) := by
    simp only [gt_iff_lt, not_or, not_lt]
    exact ⟨hy1, hy2⟩
  have hXmapne : Xc.map (fun c => |c - x|) ≠ [] := by
    intro hnil
    exact hXne (List.map_eq_nil_iff.mp hnil)
  have hYmapne : Yc.map (fun c => |c - y|) ≠ [] := by
    intro hnil
    exact hYne (List.map_eq_nil_iff.mp hnil)
  obtain ⟨hamX, -, -⟩ := argmin_spec _ hXmapne
  obtain ⟨hamY, -, -⟩ := argmin_spec _ hYmapne
  refine ⟨argmin (Xc.map (fun c => |c - x|)), argmin (Yc.map (fun c => |c - y|)),
    by simpa using hamX, by simpa using hamY, ?_, ?_⟩
  · rw [List.getElem?_map, hzip]
    simp only [Option.map_some']
    rw [if_neg hnotx, if_neg hnoty]
  · rw [List.getElem?_map, hzip]
    simp only [Option.map_some']
    rw [if_neg hnotx, if_neg hnoty]

/-- Witness for C10 at the example LCC grid with the identity engine. -/
theorem C10_witness :
    ((wgrid.ds.GDTYP = 2 ∨ wgrid.ds.GDTYP = 6) ∧ 0 < wgrid.ds.XCELL ∧
      0 < wgrid.ds.YCELL ∧ 0 < wgrid.ds.NCOLS ∧ 0 < wgrid.ds.NROWS ∧
      ([0] : List ℚ).length = ([15] : List ℚ).length) ∧
    (∃ (Xc Yc : List ℚ) (Xcorn Ycorn : List (List ℚ)) (xmn xmx ymn ymx : ℚ)
      (xpts ypts : List ℚ) (i j : List (Option ℕ)),
      wgrid.getXYcenters = .ok (Xc, Yc) ∧
      wgrid.getXYcorners = .ok (Xcorn, Ycorn) ∧
      Xcorn.flatten.min? = some xmn ∧ Xcorn.flatten.max? = some xmx ∧
      Ycorn.flatten.min? = some ymn ∧ Ycorn.flatten.max? = some ymx ∧
      cmaqfile.ll2xy idEngine wgrid [0] [15] = .ok (xpts, ypts) ∧
      cmaqfile.ll2ij idEngine wgrid [0] [15] = .ok (i, j) ∧
      ∀ (p : ℕ) (x y : ℚ), xpts[p]? = some x → ypts[p]? = some y →
        (((x = xmn ∨ x = xmx) ∧ ymn ≤ y ∧ y ≤ ymx) ∨
         ((y = ymn ∨ y = ymx) ∧ xmn ≤ x ∧ x ≤ xmx)) →
        ∃ (ix iy : ℕ), ix < Xc.length ∧ iy < Yc.length ∧
          i[p]? = some (some ix) ∧ j[p]? = some (some iy)) :=
  ⟨⟨by decide, by decide, by decide, by decide, by decide, by decide⟩,
   C10_ll2ij_boundary_inclusive idEngine wgrid (by decide) (by decide) (by decide)
     (by decide) (by decide) [0] [15] (by decide)⟩
